import Mathlib

set_option maxRecDepth 16384

/-!
Verification of the NFC (amiibo tag) service module:
a shallow embedding of `src/core/hle/service/nfc/nfc.cpp` and
`src/core/hle/service/nfc/nfc.h`.

The module state (`Module` in the C++ source) holds the tag state machine,
the two notification events (modelled by signal counters), and the loaded
amiibo record as its raw 0x21C-byte buffer, exactly as the C++ class stores
`u8 amiibo_data[sizeof(AmiiboDataDec)]`.  Struct-field reads and writes on
`AmiiboDataEnc` / `AmiiboDataDec` are modelled as byte accesses at the
offsets annotated in nfc.h, with each field's declared endianness
(`u16_be`, `u16_le`, `u32_be`).

Each IPC handler becomes a pure function from the module state (plus the
handler's popped arguments) to the pushed reply and the new module state.
A reply status of `none` models a handler that returns without pushing
anything into its `RequestBuilder` (the `if (!nfc->amiibo_decrypted) return;`
paths).  File I/O (`FileUtil::IOFile`) is an external collaborator: its
outcome enters the functions as an explicit argument (`contents` for reads,
`io_open_ok` / `io_write_ok` for writes).
-/

namespace NFC

/-! ## Byte-buffer primitives (the record is a fixed 0x21C-byte extent) -/

/-- Read one byte of a buffer (out-of-range reads give 0; all modelled
reads stay in range for 0x21C-byte buffers). -/
def getByte (d : List Nat) (i : Nat) : Nat :=
  d.getD i 0

/-- A big-endian 16-bit field at offset `off` (`u16_be` in nfc.h). -/
def be16 (d : List Nat) (off : Nat) : Nat :=
  256 * getByte d off + getByte d (off + 1)

/-- A little-endian 16-bit field at offset `off` (`u16_le` in nfc.h). -/
def le16 (d : List Nat) (off : Nat) : Nat :=
  getByte d off + 256 * getByte d (off + 1)

/-- A big-endian 32-bit field at offset `off` (`u32_be` in nfc.h). -/
def be32 (d : List Nat) (off : Nat) : Nat :=
  256 * (256 * (256 * getByte d off + getByte d (off + 1)) + getByte d (off + 2))
    + getByte d (off + 3)

/-- `memcpy` of `src` into the buffer starting at offset `off`. -/
def writeBytes (d : List Nat) (off : Nat) (src : List Nat) : List Nat :=
  d.take off ++ src ++ d.drop (off + src.length)

/-- Store a 16-bit value big-endian at offset `off`. -/
def setBE16 (d : List Nat) (off : Nat) (v : Nat) : List Nat :=
  writeBytes d off [v / 256 % 256, v % 256]

/-- Store a 32-bit value big-endian at offset `off`. -/
def setBE32 (d : List Nat) (off : Nat) (v : Nat) : List Nat :=
  writeBytes d off [v / 16777216 % 256, v / 65536 % 256, v / 256 % 256, v % 256]

/-! ## Record codec (nfc.cpp lines 14-43) -/

/-- `pack_date` of nfc.cpp: `((day & 0x1F) << 11) | ((month & 0x0F) << 7) |
((year - 2000) & 0x7F)`, truncated to a u16.  The year subtraction happens
in C on `int`, so `(year - 2000) & 0x7F` is the mathematical
`(year - 2000) mod 128`, rendered here with `Int` subtraction and `%`. -/
def pack_date (month day year : Nat) : Nat :=
  (((day &&& 0x1F) <<< 11) ||| ((month &&& 0x0F) <<< 7) |||
    (((year : Int) - 2000) % 128).toNat) % 65536

/-- `unpack_date_day` of nfc.cpp: `(date & 0xF800) >> 11`. -/
def unpack_date_day (date : Nat) : Nat :=
  (date &&& 0xF800) >>> 11

/-- `unpack_date_month` of nfc.cpp: `(date & 0x780) >> 7`. -/
def unpack_date_month (date : Nat) : Nat :=
  (date &&& 0x780) >>> 7

/-- `unpack_date_year` of nfc.cpp: `(date & 0x7F) + 2000`. -/
def unpack_date_year (date : Nat) : Nat :=
  (date &&& 0x7F) + 2000

/-- `flag_settings_initted` of nfc.cpp: `flags & 0x10` as a C boolean. -/
def flag_settings_initted (flags : Nat) : Bool :=
  flags &&& 0x10 != 0

/-- `flag_appdata_initted` of nfc.cpp: `flags & 0x20` as a C boolean. -/
def flag_appdata_initted (flags : Nat) : Bool :=
  flags &&& 0x20 != 0

/-! ## Enumerations and error codes (nfc.h) -/

/-- `TagState` of nfc.h (the spec calls `NotInitialized` "Uninitialized"
and `Unknown6` "ExtendedHold"). -/
inductive TagState where
  | NotInitialized
  | NotScanning
  | Scanning
  | TagInRange
  | TagOutOfRange
  | TagDataLoaded
  | Unknown6
deriving DecidableEq, Repr

/-- `CommunicationStatus` of nfc.h. -/
inductive CommunicationStatus where
  | NotInitialized
  | AttemptInitialize
  | Initialized
deriving DecidableEq, Repr

/-- `ErrCodes` of nfc.h. -/
def CommandInvalidForState : Nat := 512

def AppDataUninitialized : Nat := 544

def AmiiboNotSetup : Nat := 552

def AppIdMismatch : Nat := 568

/-- A pushed result: `RESULT_SUCCESS` or a `ResultCode` built from one of
the `ErrCodes` values (module, summary and level are fixed at each site). -/
inductive ResultCode where
  | success
  | error (code : Nat)
deriving DecidableEq, Repr

/-! ## Field offsets of `AmiiboDataDec` and `AmiiboDataEnc` (nfc.h) -/

namespace Dec

/-- Byte 0x2C of the decrypted record: `flags`. -/
def flags (d : List Nat) : Nat := getByte d 0x2C

/-- Byte 0x2D: `country`. -/
def country (d : List Nat) : Nat := getByte d 0x2D

/-- `u16_be` at 0x30: `setup_date`. -/
def setup_date (d : List Nat) : Nat := be16 d 0x30

/-- `u16_be` at 0x32: `last_write_date`. -/
def last_write_date (d : List Nat) : Nat := be16 d 0x32

/-- 0x60 bytes at 0x4C: `mii`. -/
def mii (d : List Nat) : List Nat := (d.drop 0x4C).take 0x60

/-- `u16_be` at 0xB4: `write_count`. -/
def write_count (d : List Nat) : Nat := be16 d 0xB4

/-- `u32_be` at 0xB6: `app_id`. -/
def app_id (d : List Nat) : Nat := be32 d 0xB6

/-- 0xD8 bytes at 0xDC: `app_data`. -/
def app_data (d : List Nat) : List Nat := (d.drop 0xDC).take 0xD8

/-- 7 bytes at 0x1D4: `uuid`. -/
def uuid (d : List Nat) : List Nat := (d.drop 0x1D4).take 7

/-- `u16_le` at 0x1DC: `char_id`. -/
def char_id (d : List Nat) : Nat := le16 d 0x1DC

/-- Byte 0x1DE: `char_variant`. -/
def char_variant (d : List Nat) : Nat := getByte d 0x1DE

/-- Byte 0x1DF: `figure_type`. -/
def figure_type (d : List Nat) : Nat := getByte d 0x1DF

/-- `u16_be` at 0x1E0: `model_number`. -/
def model_number (d : List Nat) : Nat := be16 d 0x1E0

/-- Byte 0x1E2: `series`. -/
def series (d : List Nat) : Nat := getByte d 0x1E2

/-- Byte 0x1E3: `unknown3`, the classification discriminant. -/
def unknown3 (d : List Nat) : Nat := getByte d 0x1E3

end Dec

namespace Enc

/-- 7 bytes at 0: `uuid` of the encrypted record. -/
def uuid (d : List Nat) : List Nat := d.take 7

/-- `u16_le` at 0x54: `char_id`. -/
def char_id (d : List Nat) : Nat := le16 d 0x54

/-- Byte 0x56: `char_variant`. -/
def char_variant (d : List Nat) : Nat := getByte d 0x56

/-- Byte 0x57: `figure_type`. -/
def figure_type (d : List Nat) : Nat := getByte d 0x57

/-- `u16_be` at 0x58: `model_number`. -/
def model_number (d : List Nat) : Nat := be16 d 0x58

/-- Byte 0x5A: `series`. -/
def series (d : List Nat) : Nat := getByte d 0x5A

end Enc

end NFC

namespace NFC

/-! ## Module state (nfc.h, `class Module`) -/

/-- The mutable state of `Service::NFC::Module`.  The two kernel events are
modelled by counters of their `Signal()` calls. -/
structure Module where
  tag_in_range_signals : Nat
  tag_out_of_range_signals : Nat
  nfc_tag_state : TagState
  nfc_status : CommunicationStatus
  amiibo_data : List Nat
  amiibo_decrypted : Bool
  amiibo_filename : String
  amiibo_in_range : Bool
deriving DecidableEq, Repr

/-- `Module::SyncTagState` (nfc.cpp lines 646-661). -/
def SyncTagState (m : Module) : Module :=
  if m.amiibo_in_range = true ∧
      (m.nfc_tag_state = TagState.TagOutOfRange ∨ m.nfc_tag_state = TagState.Scanning) then
    { m with nfc_tag_state := TagState.TagInRange,
             tag_in_range_signals := m.tag_in_range_signals + 1 }
  else if m.amiibo_in_range = false ∧
      (m.nfc_tag_state = TagState.TagInRange ∨ m.nfc_tag_state = TagState.TagDataLoaded ∨
        m.nfc_tag_state = TagState.Unknown6) then
    { m with nfc_tag_state := TagState.TagOutOfRange,
             tag_out_of_range_signals := m.tag_out_of_range_signals + 1 }
  else
    m

/-! ## IPC handlers (nfc.cpp).  Each returns the pushed reply and the new
module state; a `none` status models a handler path that returns without
pushing anything into its `RequestBuilder`. -/

/-- `Module::Interface::Initialize` (nfc.cpp lines 109-125).  The popped
`param` byte is only logged. -/
def Initialize (m : Module) (param : Nat) : Option ResultCode × Module :=
  let _ := param
  if m.nfc_tag_state ≠ TagState.NotInitialized then
    (some (ResultCode.error CommandInvalidForState), m)
  else
    (some ResultCode.success, { m with nfc_tag_state := TagState.NotScanning })

/-- `Module::Interface::Shutdown` (nfc.cpp lines 127-136). -/
def Shutdown (m : Module) (param : Nat) : Option ResultCode × Module :=
  let _ := param
  (some ResultCode.success, { m with nfc_tag_state := TagState.NotInitialized })

/-- `Module::Interface::StartCommunication` (nfc.cpp lines 138-144). -/
def StartCommunication (m : Module) : Option ResultCode × Module :=
  (some ResultCode.success, m)

/-- `Module::Interface::StopCommunication` (nfc.cpp lines 146-152). -/
def StopCommunication (m : Module) : Option ResultCode × Module :=
  (some ResultCode.success, m)

/-- `Module::Interface::StartTagScanning` (nfc.cpp lines 154-172). -/
def StartTagScanning (m : Module) (in_val : Nat) : Option ResultCode × Module :=
  let _ := in_val
  if m.nfc_tag_state ≠ TagState.NotScanning ∧ m.nfc_tag_state ≠ TagState.TagOutOfRange then
    (some (ResultCode.error CommandInvalidForState), m)
  else
    (some ResultCode.success, SyncTagState { m with nfc_tag_state := TagState.Scanning })

/-- `Module::Interface::StopTagScanning` (nfc.cpp lines 416-432). -/
def StopTagScanning (m : Module) : Option ResultCode × Module :=
  if m.nfc_tag_state = TagState.NotInitialized ∨ m.nfc_tag_state = TagState.NotScanning then
    (some (ResultCode.error CommandInvalidForState), m)
  else
    (some ResultCode.success, { m with nfc_tag_state := TagState.NotScanning })

/-- `Module::Interface::LoadAmiiboData` (nfc.cpp lines 434-445): state check
intentionally unimplemented, always succeeds. -/
def LoadAmiiboData (m : Module) : Option ResultCode × Module :=
  (some ResultCode.success, { m with nfc_tag_state := TagState.TagDataLoaded })

/-- `Module::Interface::ResetTagScanState` (nfc.cpp lines 447-463). -/
def ResetTagScanState (m : Module) : Option ResultCode × Module :=
  if m.nfc_tag_state ≠ TagState.TagDataLoaded ∧ m.nfc_tag_state ≠ TagState.Unknown6 then
    (some (ResultCode.error CommandInvalidForState), m)
  else
    (some ResultCode.success, SyncTagState { m with nfc_tag_state := TagState.TagInRange })

/-- `Module::Interface::UpdateStoredAmiiboData` (nfc.cpp lines 465-498).
`io_open_ok` / `io_write_ok` are the outcomes of `IOFile` open and
`WriteBytes`; the middle component is the byte image persisted to the
backing file (`none` when nothing was written). -/
def UpdateStoredAmiiboData (m : Module) (io_open_ok io_write_ok : Bool) :
    Option ResultCode × Option (List Nat) × Module :=
  if m.nfc_tag_state ≠ TagState.TagDataLoaded then
    (some (ResultCode.error CommandInvalidForState), none, m)
  else if m.amiibo_decrypted = false then
    (some (ResultCode.error CommandInvalidForState), none, m)
  else if m.amiibo_filename = "" then
    (some (ResultCode.error CommandInvalidForState), none, m)
  else
    let d1 := setBE16 m.amiibo_data 0x32 (pack_date 11 21 2014)
    let d2 := setBE16 d1 0xB4 ((be16 d1 0xB4 + 1) % 65536)
    let written := if io_open_ok = true ∧ io_write_ok = true then some d2 else none
    let m2 := { m with amiibo_data := d2 }
    (some ResultCode.success, written, SyncTagState { m2 with amiibo_in_range := false })

/-- `Module::Interface::GetTagInRangeEvent` (nfc.cpp lines 500-515); the
event handle pushed on success is not modelled. -/
def GetTagInRangeEvent (m : Module) : Option ResultCode × Module :=
  if m.nfc_tag_state ≠ TagState.NotScanning then
    (some (ResultCode.error CommandInvalidForState), m)
  else
    (some ResultCode.success, m)

/-- `Module::Interface::GetTagOutOfRangeEvent` (nfc.cpp lines 517-532). -/
def GetTagOutOfRangeEvent (m : Module) : Option ResultCode × Module :=
  if m.nfc_tag_state ≠ TagState.NotScanning then
    (some (ResultCode.error CommandInvalidForState), m)
  else
    (some ResultCode.success, m)

/-- `Module::Interface::GetTagState` (nfc.cpp lines 534-541). -/
def GetTagState (m : Module) : Option (ResultCode × TagState) × Module :=
  (some (ResultCode.success, m.nfc_tag_state), m)

/-- `Module::Interface::CommunicationGetStatus` (nfc.cpp lines 543-550). -/
def CommunicationGetStatus (m : Module) : Option (ResultCode × CommunicationStatus) × Module :=
  (some (ResultCode.success, m.nfc_status), m)

/-- The `TagInfo` reply struct (nfc.cpp lines 70-77). -/
structure TagInfo where
  id_offset_size : Nat
  unk1 : Nat
  unk2 : Nat
  id : List Nat
deriving DecidableEq, Repr

/-- `Module::Interface::GetTagInfo` (nfc.cpp lines 174-206). -/
def GetTagInfo (m : Module) : Option (ResultCode × Option TagInfo) × Module :=
  if m.nfc_tag_state ≠ TagState.TagInRange ∧ m.nfc_tag_state ≠ TagState.TagDataLoaded ∧
      m.nfc_tag_state ≠ TagState.Unknown6 then
    (some (ResultCode.error CommandInvalidForState, none), m)
  else
    let u := if m.amiibo_decrypted = false then Enc.uuid m.amiibo_data
             else Dec.uuid m.amiibo_data
    (some (ResultCode.success,
           some { id_offset_size := 7, unk1 := 0x0, unk2 := 0x2,
                  id := u ++ List.replicate (0x28 - 7) 0 }), m)

end NFC

namespace NFC

/-- The `AmiiboSettings` reply struct (nfc.h lines 94-105).  `nickname` is
the raw 22-byte extent of the destination `std::array<u16, 11>`: the
handler `memcpy`s `sizeof(AmiiboSettings::nickname)` bytes from the
record's nickname field. -/
structure AmiiboSettings where
  mii : List Nat
  nickname : List Nat
  flags : Nat
  country : Nat
  setup_year : Nat
  setup_month : Nat
  setup_day : Nat
  dummy : List Nat
deriving DecidableEq, Repr

/-- The zero-filled `AmiiboSettings{}` value. -/
def zeroAmiiboSettings : AmiiboSettings :=
  { mii := List.replicate 0x60 0, nickname := List.replicate 22 0,
    flags := 0, country := 0, setup_year := 0, setup_month := 0, setup_day := 0,
    dummy := List.replicate 0x2C 0 }

/-- `Module::Interface::GetAmiiboSettings` (nfc.cpp lines 208-250).  The
`memcpy` into the 11-slot `u16` nickname array reads 22 bytes starting at
the record's nickname field (offset 0x38). -/
def GetAmiiboSettings (m : Module) : Option (ResultCode × AmiiboSettings) × Module :=
  if m.amiibo_decrypted = false then
    (none, m)
  else if flag_settings_initted (Dec.flags m.amiibo_data) = false then
    (some (ResultCode.error AmiiboNotSetup, zeroAmiiboSettings), m)
  else
    (some (ResultCode.success,
      { mii := Dec.mii m.amiibo_data,
        nickname := (m.amiibo_data.drop 0x38).take 22,
        flags := Dec.flags m.amiibo_data &&& 0xF,
        country := Dec.country m.amiibo_data,
        setup_year := unpack_date_year (Dec.setup_date m.amiibo_data),
        setup_month := unpack_date_month (Dec.setup_date m.amiibo_data),
        setup_day := unpack_date_day (Dec.setup_date m.amiibo_data),
        dummy := List.replicate 0x2C 0 }), m)

/-- `Module::Interface::OpenAppData` (nfc.cpp lines 256-278). -/
def OpenAppData (m : Module) (app_id : Nat) : Option ResultCode × Module :=
  if m.amiibo_decrypted = false then
    (none, m)
  else if app_id ≠ Dec.app_id m.amiibo_data then
    (some (ResultCode.error AppIdMismatch), m)
  else if flag_appdata_initted (Dec.flags m.amiibo_data) = false then
    (some (ResultCode.error AppDataUninitialized), m)
  else
    (some ResultCode.success, m)

/-- `Module::Interface::InitializeWriteAppData` (nfc.cpp lines 280-309).
No clamping here: the copy happens exactly when `size = buffer.length`. -/
def InitializeWriteAppData (m : Module) (app_id size : Nat) (buffer : List Nat) :
    Option ResultCode × Module :=
  if m.amiibo_decrypted = false then
    (none, m)
  else if size ≠ buffer.length then
    (some ResultCode.success, m)
  else
    let d1 := writeBytes m.amiibo_data 0xDC buffer
    (some ResultCode.success, { m with amiibo_data := setBE32 d1 0xB6 app_id })

/-- `Module::Interface::ReadAppData` (nfc.cpp lines 311-334). -/
def ReadAppData (m : Module) : Option (ResultCode × Option (List Nat)) × Module :=
  if m.amiibo_decrypted = false then
    (none, m)
  else if m.nfc_tag_state = TagState.NotInitialized then
    (some (ResultCode.error CommandInvalidForState, none), m)
  else
    (some (ResultCode.success, some (Dec.app_data m.amiibo_data)),
     { m with nfc_tag_state := TagState.TagDataLoaded })

/-- `Module::Interface::WriteAppData` (nfc.cpp lines 336-372).  A `size`
above the 0xD8-byte capacity is clamped to 0xD8 before the comparison with
the buffer length; on mismatch nothing is copied; either way the handler
sets `TagDataLoaded` and pushes `RESULT_SUCCESS`. -/
def WriteAppData (m : Module) (size : Nat) (buffer : List Nat) :
    Option ResultCode × Module :=
  if m.amiibo_decrypted = false then
    (none, m)
  else if m.nfc_tag_state = TagState.NotInitialized then
    (some (ResultCode.error CommandInvalidForState), m)
  else
    let size2 := if size > 0xD8 then 0xD8 else size
    if size2 ≠ buffer.length then
      (some ResultCode.success, { m with nfc_tag_state := TagState.TagDataLoaded })
    else
      (some ResultCode.success,
       { m with amiibo_data := writeBytes m.amiibo_data 0xDC buffer,
                nfc_tag_state := TagState.TagDataLoaded })

/-- The `AmiiboConfig` reply struct (nfc.cpp lines 79-94). -/
structure AmiiboConfig where
  last_write_year : Nat
  last_write_month : Nat
  last_write_day : Nat
  write_count : Nat
  char_id : Nat
  char_variant : Nat
  series : Nat
  model_number : Nat
  figure_type : Nat
  pagex4_byte3 : Nat
  appdata_size : Nat
deriving DecidableEq, Repr

/-- `Module::Interface::GetAmiiboConfig` (nfc.cpp lines 374-414). -/
def GetAmiiboConfig (m : Module) : Option (ResultCode × AmiiboConfig) × Module :=
  if m.amiibo_decrypted = false then
    (some (ResultCode.success,
      { last_write_year := 2014, last_write_month := 11, last_write_day := 21,
        write_count := 1,
        char_id := Enc.char_id m.amiibo_data,
        char_variant := Enc.char_variant m.amiibo_data,
        series := Enc.series m.amiibo_data,
        model_number := Enc.model_number m.amiibo_data,
        figure_type := Enc.figure_type m.amiibo_data,
        pagex4_byte3 := 0x0, appdata_size := 0 }), m)
  else
    (some (ResultCode.success,
      { last_write_year := unpack_date_year (Dec.last_write_date m.amiibo_data),
        last_write_month := unpack_date_month (Dec.last_write_date m.amiibo_data),
        last_write_day := unpack_date_day (Dec.last_write_date m.amiibo_data),
        write_count := Dec.write_count m.amiibo_data,
        char_id := Dec.char_id m.amiibo_data,
        char_variant := Dec.char_variant m.amiibo_data,
        series := Dec.series m.amiibo_data,
        model_number := Dec.model_number m.amiibo_data,
        figure_type := Dec.figure_type m.amiibo_data,
        pagex4_byte3 := 0x0, appdata_size := 0xD8 }), m)

/-- `Module::Interface::Unknown0x1A` (nfc.cpp lines 552-567). -/
def Unknown0x1A (m : Module) : Option ResultCode × Module :=
  if m.nfc_tag_state ≠ TagState.TagInRange then
    (some (ResultCode.error CommandInvalidForState), m)
  else
    (some ResultCode.success, { m with nfc_tag_state := TagState.Unknown6 })

/-- The `IdentificationBlockReply` struct (nfc.cpp lines 96-105). -/
structure IdentificationBlockReply where
  char_id : Nat
  char_variant : Nat
  series : Nat
  model_number : Nat
  figure_type : Nat
deriving DecidableEq, Repr

/-- `Module::Interface::GetIdentificationBlock` (nfc.cpp lines 569-603). -/
def GetIdentificationBlock (m : Module) :
    Option (ResultCode × Option IdentificationBlockReply) × Module :=
  if m.nfc_tag_state ≠ TagState.TagDataLoaded ∧ m.nfc_tag_state ≠ TagState.Unknown6 then
    (some (ResultCode.error CommandInvalidForState, none), m)
  else if m.amiibo_decrypted = false then
    (some (ResultCode.success,
      some { char_id := Enc.char_id m.amiibo_data,
             char_variant := Enc.char_variant m.amiibo_data,
             series := Enc.series m.amiibo_data,
             model_number := Enc.model_number m.amiibo_data,
             figure_type := Enc.figure_type m.amiibo_data }), m)
  else
    (some (ResultCode.success,
      some { char_id := Dec.char_id m.amiibo_data,
             char_variant := Dec.char_variant m.amiibo_data,
             series := Dec.series m.amiibo_data,
             model_number := Dec.model_number m.amiibo_data,
             figure_type := Dec.figure_type m.amiibo_data }), m)

/-- `Module::Interface::LoadAmiibo` (nfc.cpp lines 609-638).  `contents` is
the outcome of opening and reading the file: `none` when the file cannot be
opened or `ReadBytes` cannot fill the full `sizeof(AmiiboDataDec)` bytes,
otherwise the 0x21C bytes read. -/
def LoadAmiibo (m : Module) (fullpath : String) (contents : Option (List Nat)) :
    Bool × Module :=
  match contents with
  | none => (false, m)
  | some bytes =>
    (true, SyncTagState
      { m with amiibo_decrypted := Dec.unknown3 bytes == 0x02,
               amiibo_filename := fullpath,
               amiibo_in_range := true,
               amiibo_data := bytes })

/-- `Module::Interface::RemoveAmiibo` (nfc.cpp lines 640-644). -/
def RemoveAmiibo (m : Module) : Module :=
  SyncTagState { m with amiibo_in_range := false }

end NFC

namespace NFC

/-! ## Helper lemmas about the byte-buffer primitives -/

theorem length_writeBytes (d src : List Nat) (off : Nat)
    (h : off + src.length ≤ d.length) :
    (writeBytes d off src).length = d.length := by
  simp [writeBytes]
  omega

theorem getByte_writeBytes (d src : List Nat) (off i : Nat)
    (h : off + src.length ≤ d.length) :
    getByte (writeBytes d off src) i =
      if i < off then getByte d i
      else if i < off + src.length then src.getD (i - off) 0
      else getByte d i := by
  have hlen1 : (d.take off).length = off := by
    simp [List.length_take]
    omega
  have hlen2 : (d.take off ++ src).length = off + src.length := by
    simp [List.length_append, hlen1]
  simp only [getByte, writeBytes, List.getD_eq_getElem?_getD]
  rw [List.getElem?_append, hlen2]
  by_cases h2 : i < off + src.length
  · simp only [if_pos h2]
    rw [List.getElem?_append, hlen1]
    by_cases h1 : i < off
    · simp only [if_pos h1]
      rw [List.getElem?_take, if_pos h1]
    · simp only [if_neg h1, if_neg h1]
    
  · simp only [if_neg h2]
    have h1 : ¬ i < off := by omega
    simp only [if_neg h1]
    rw [List.getElem?_drop]
    congr 2
    omega

end NFC

namespace NFC

theorem getByte_setBE16 (d : List Nat) (off v i : Nat) (h : off + 2 ≤ d.length) :
    getByte (setBE16 d off v) i =
      if i = off then v / 256 % 256
      else if i = off + 1 then v % 256
      else getByte d i := by
  have hw := getByte_writeBytes d [v / 256 % 256, v % 256] off i (by simpa using h)
  simp only [setBE16]
  rw [hw]
  by_cases h1 : i = off
  · subst h1
    simp
  · by_cases h2 : i = off + 1
    · subst h2
      simp [List.getD]
    · rcases (by omega : i < off ∨ ¬ i < off + 2) with h3 | h3
      · simp only [List.length_cons, List.length_nil]
        rw [if_pos h3]
        simp [h1, h2]
      · simp only [List.length_cons, List.length_nil]
        rw [if_neg (by omega : ¬ i < off), if_neg (by omega : ¬ i < off + (0 + 1 + 1))]
        simp [h1, h2]

theorem length_setBE16 (d : List Nat) (off v : Nat) (h : off + 2 ≤ d.length) :
    (setBE16 d off v).length = d.length := by
  simpa [setBE16] using length_writeBytes d [v / 256 % 256, v % 256] off (by simpa using h)

theorem be16_setBE16 (d : List Nat) (off v : Nat) (h : off + 2 ≤ d.length) (hv : v < 65536) :
    be16 (setBE16 d off v) off = v := by
  simp only [be16, getByte_setBE16 d off v _ h]
  simp
  omega

theorem getByte_setBE16_ne (d : List Nat) (off v i : Nat) (h : off + 2 ≤ d.length)
    (h1 : i ≠ off) (h2 : i ≠ off + 1) :
    getByte (setBE16 d off v) i = getByte d i := by
  rw [getByte_setBE16 d off v i h, if_neg h1, if_neg h2]

theorem be16_setBE16_ne (d : List Nat) (off off2 v : Nat) (h : off + 2 ≤ d.length)
    (hne : off2 + 2 ≤ off ∨ off + 2 ≤ off2) :
    be16 (setBE16 d off v) off2 = be16 d off2 := by
  simp only [be16]
  rw [getByte_setBE16_ne d off v off2 h (by omega) (by omega),
      getByte_setBE16_ne d off v (off2 + 1) h (by omega) (by omega)]

/-! ## Helper lemmas about the date bit-packing -/

theorem shiftRight_land (x y : Nat) : ∀ i, (x &&& y) >>> i = (x >>> i) &&& (y >>> i)
  | 0 => rfl
  | i + 1 => by
    rw [Nat.shiftRight_succ, Nat.shiftRight_succ, Nat.shiftRight_succ,
        shiftRight_land x y i, Nat.and_div_two]

theorem and_mask31 (x : Nat) : x &&& 31 = x % 32 := by
  simpa using Nat.and_pow_two_sub_one_eq_mod x 5

theorem and_mask15 (x : Nat) : x &&& 15 = x % 16 := by
  simpa using Nat.and_pow_two_sub_one_eq_mod x 4

theorem and_mask127 (x : Nat) : x &&& 127 = x % 128 := by
  simpa using Nat.and_pow_two_sub_one_eq_mod x 7

theorem or_shifts_eq (a b c : Nat) (hb : b < 16) (hc : c < 128) :
    (a <<< 11) ||| (b <<< 7) ||| c = a * 2048 + b * 128 + c := by
  have h1 : b <<< 7 = 128 * b := by rw [Nat.shiftLeft_eq]; ring
  have h2 : a <<< 11 = 2048 * a := by rw [Nat.shiftLeft_eq]; ring
  have h3 : 128 * b + c = (128 * b) ||| c := by
    have h := Nat.mul_add_lt_is_or (i := 7) (b := c) (by simpa using hc) b
    norm_num at h
    exact h
  have h4 : 2048 * a + (128 * b + c) = (2048 * a) ||| (128 * b + c) := by
    have h := Nat.mul_add_lt_is_or (i := 11) (b := 128 * b + c) (by norm_num; omega) a
    norm_num at h
    exact h
  rw [h2, h1, Nat.or_assoc, ← h3, ← h4]
  ring

theorem unpack_date_day_eq (v : Nat) : unpack_date_day v = v / 2048 % 32 := by
  rw [unpack_date_day, shiftRight_land]
  have h1 : (0xF800 : Nat) >>> 11 = 31 := by decide
  rw [h1, and_mask31, Nat.shiftRight_eq_div_pow]

theorem unpack_date_month_eq (v : Nat) : unpack_date_month v = v / 128 % 16 := by
  rw [unpack_date_month, shiftRight_land]
  have h1 : (0x780 : Nat) >>> 7 = 15 := by decide
  rw [h1, and_mask15, Nat.shiftRight_eq_div_pow]

theorem unpack_date_year_eq (v : Nat) : unpack_date_year v = v % 128 + 2000 := by
  rw [unpack_date_year, and_mask127]

/-! ## Helper lemma about reconciliation -/

theorem syncTagState_unknown6 (m : Module) :
    (SyncTagState m).nfc_tag_state = TagState.Unknown6 → m.nfc_tag_state = TagState.Unknown6 := by
  unfold SyncTagState
  split
  · intro h
    simp at h
  · split
    · intro h
      simp at h
    · exact fun h => h

theorem syncTagState_fields (m : Module) :
    (SyncTagState m).amiibo_data = m.amiibo_data
    ∧ (SyncTagState m).amiibo_decrypted = m.amiibo_decrypted
    ∧ (SyncTagState m).amiibo_filename = m.amiibo_filename
    ∧ (SyncTagState m).amiibo_in_range = m.amiibo_in_range
    ∧ (SyncTagState m).nfc_status = m.nfc_status := by
  unfold SyncTagState
  split
  · exact ⟨rfl, rfl, rfl, rfl, rfl⟩
  · split
    · exact ⟨rfl, rfl, rfl, rfl, rfl⟩
    · exact ⟨rfl, rfl, rfl, rfl, rfl⟩

end NFC

namespace NFC

/-! ## Concrete module values used by witnesses and counterexamples -/

/-- A module state with no tag loaded, in a given tag state. -/
def testModule (s : TagState) : Module :=
  { tag_in_range_signals := 0, tag_out_of_range_signals := 0, nfc_tag_state := s,
    nfc_status := CommunicationStatus.Initialized,
    amiibo_data := List.replicate 0x21C 0,
    amiibo_decrypted := false, amiibo_filename := "", amiibo_in_range := false }

/-- A module state with a decrypted (all-zero) record loaded from a file,
in state `TagDataLoaded`. -/
def loadedModule : Module :=
  { tag_in_range_signals := 0, tag_out_of_range_signals := 0,
    nfc_tag_state := TagState.TagDataLoaded,
    nfc_status := CommunicationStatus.Initialized,
    amiibo_data := List.replicate 0x21C 0,
    amiibo_decrypted := true, amiibo_filename := "amiibo.bin", amiibo_in_range := true }

/-- A module state with an encrypted (RawVariant, all-zero) record loaded,
in state `TagDataLoaded`. -/
def rawModule : Module :=
  { tag_in_range_signals := 0, tag_out_of_range_signals := 0,
    nfc_tag_state := TagState.TagDataLoaded,
    nfc_status := CommunicationStatus.Initialized,
    amiibo_data := List.replicate 0x21C 0,
    amiibo_decrypted := false, amiibo_filename := "amiibo.bin", amiibo_in_range := true }

end NFC

namespace NFC

/-! ## Claim theorems -/

/-- C6: for every day in [1,31], month in [1,12] and year in [2000,2127],
`pack_date(m, d, y)` equals `((d & 0x1F) << 11) | ((m & 0x0F) << 7) |
((y - 2000) & 0x7F)`, and unpacking that 16-bit value with
`unpack_date_day`, `unpack_date_month` and `unpack_date_year` yields exactly
`(d, m, y)`, the year reconstructed as `(value & 0x7F) + 2000`. -/
theorem C6_date_roundtrip (d m y : Nat)
    (hd1 : 1 ≤ d) (hd2 : d ≤ 31) (hm1 : 1 ≤ m) (hm2 : m ≤ 12)
    (hy1 : 2000 ≤ y) (hy2 : y ≤ 2127) :
    pack_date m d y = ((d &&& 0x1F) <<< 11) ||| ((m &&& 0x0F) <<< 7) ||| ((y - 2000) &&& 0x7F)
    ∧ unpack_date_day (pack_date m d y) = d
    ∧ unpack_date_month (pack_date m d y) = m
    ∧ unpack_date_year (pack_date m d y) = y := by
  have h1 : d &&& 0x1F = d := by rw [and_mask31]; omega
  have h2 : m &&& 0x0F = m := by rw [and_mask15]; omega
  have h3 : (y - 2000) &&& 0x7F = y - 2000 := by rw [and_mask127]; omega
  have h4 : ((((y : Int) - 2000) % 128).toNat) = y - 2000 := by omega
  have hval : pack_date m d y = d * 2048 + m * 128 + (y - 2000) := by
    rw [pack_date, h1, h2, h4, or_shifts_eq d m (y - 2000) (by omega) (by omega)]
    omega
  refine ⟨?_, ?_, ?_, ?_⟩
  · rw [hval, h1, h2, h3, or_shifts_eq d m (y - 2000) (by omega) (by omega)]
  · rw [hval, unpack_date_day_eq]
    omega
  · rw [hval, unpack_date_month_eq]
    omega
  · rw [hval, unpack_date_year_eq]
    omega

/-- Witness for C6 at the placeholder write date (day 21, month 11,
year 2014). -/
theorem C6_date_roundtrip_witness :
    pack_date 11 21 2014 =
      ((21 &&& 0x1F) <<< 11) ||| ((11 &&& 0x0F) <<< 7) ||| ((2014 - 2000) &&& 0x7F)
    ∧ unpack_date_day (pack_date 11 21 2014) = 21
    ∧ unpack_date_month (pack_date 11 21 2014) = 11
    ∧ unpack_date_year (pack_date 11 21 2014) = 2014 :=
  C6_date_roundtrip 21 11 2014 (by decide) (by decide) (by decide) (by decide)
    (by decide) (by decide)

end NFC

namespace NFC

/-- C2: `SyncTagState` computes exactly this transition: tag present and
state in {TagOutOfRange, Scanning} goes to TagInRange and signals the
entered-range event exactly once; tag absent and state in {TagInRange,
TagDataLoaded, Unknown6} goes to TagOutOfRange and signals the left-range
event exactly once; every other combination leaves the module unchanged
and signals neither event. -/
theorem C2_sync_tag_state (m : Module) :
    (m.amiibo_in_range = true →
      (m.nfc_tag_state = TagState.TagOutOfRange ∨ m.nfc_tag_state = TagState.Scanning) →
      SyncTagState m = { m with
        nfc_tag_state := TagState.TagInRange
        tag_in_range_signals := m.tag_in_range_signals + 1 })
    ∧ (m.amiibo_in_range = false →
      (m.nfc_tag_state = TagState.TagInRange ∨ m.nfc_tag_state = TagState.TagDataLoaded ∨
        m.nfc_tag_state = TagState.Unknown6) →
      SyncTagState m = { m with
        nfc_tag_state := TagState.TagOutOfRange
        tag_out_of_range_signals := m.tag_out_of_range_signals + 1 })
    ∧ (¬ (m.amiibo_in_range = true ∧
          (m.nfc_tag_state = TagState.TagOutOfRange ∨ m.nfc_tag_state = TagState.Scanning)) →
       ¬ (m.amiibo_in_range = false ∧
          (m.nfc_tag_state = TagState.TagInRange ∨ m.nfc_tag_state = TagState.TagDataLoaded ∨
            m.nfc_tag_state = TagState.Unknown6)) →
       SyncTagState m = m) := by
  refine ⟨?_, ?_, ?_⟩
  · intro h1 h2
    rw [SyncTagState, if_pos ⟨h1, h2⟩]
  · intro h1 h2
    rw [SyncTagState, if_neg (by simp [h1]), if_pos ⟨h1, h2⟩]
  · intro h1 h2
    rw [SyncTagState, if_neg h1, if_neg h2]

/-- Witness for C2: loading a tag while scanning signals the entered-range
event once, and removing it from `TagDataLoaded` signals the left-range
event once. -/
theorem C2_sync_tag_state_witness :
    SyncTagState { testModule TagState.Scanning with amiibo_in_range := true } =
      { testModule TagState.Scanning with
        amiibo_in_range := true
        nfc_tag_state := TagState.TagInRange
        tag_in_range_signals := 1 }
    ∧ SyncTagState (testModule TagState.TagDataLoaded) =
      { testModule TagState.TagDataLoaded with
        nfc_tag_state := TagState.TagOutOfRange
        tag_out_of_range_signals := 1 }
    ∧ SyncTagState (testModule TagState.NotScanning) = testModule TagState.NotScanning :=
  ⟨(C2_sync_tag_state _).1 (by decide) (by decide),
   (C2_sync_tag_state _).2.1 (by decide) (by decide),
   (C2_sync_tag_state _).2.2 (by decide) (by decide)⟩

end NFC

namespace NFC

/-- C1: every dispatcher operation with a declared accepted-state set,
invoked from any `TagState` outside that set, pushes the
`CommandInvalidForState` status and leaves the whole module state — tag
state, record bytes and both event signal counts — unchanged.
(`Uninitialized` of the spec is `NotInitialized`; `ExtendedHold` is
`Unknown6`.) -/
theorem C1_state_gating (m : Module) :
    (∀ p, m.nfc_tag_state ≠ TagState.NotInitialized →
      Initialize m p = (some (ResultCode.error CommandInvalidForState), m))
    ∧ (∀ v, m.nfc_tag_state ≠ TagState.NotScanning → m.nfc_tag_state ≠ TagState.TagOutOfRange →
      StartTagScanning m v = (some (ResultCode.error CommandInvalidForState), m))
    ∧ (m.nfc_tag_state = TagState.NotInitialized ∨ m.nfc_tag_state = TagState.NotScanning →
      StopTagScanning m = (some (ResultCode.error CommandInvalidForState), m))
    ∧ (m.nfc_tag_state ≠ TagState.TagDataLoaded → m.nfc_tag_state ≠ TagState.Unknown6 →
      ResetTagScanState m = (some (ResultCode.error CommandInvalidForState), m))
    ∧ (m.nfc_tag_state ≠ TagState.TagInRange → m.nfc_tag_state ≠ TagState.TagDataLoaded →
        m.nfc_tag_state ≠ TagState.Unknown6 →
      GetTagInfo m = (some (ResultCode.error CommandInvalidForState, none), m))
    ∧ (m.nfc_tag_state ≠ TagState.NotScanning →
      GetTagInRangeEvent m = (some (ResultCode.error CommandInvalidForState), m))
    ∧ (m.nfc_tag_state ≠ TagState.NotScanning →
      GetTagOutOfRangeEvent m = (some (ResultCode.error CommandInvalidForState), m)) := by
  refine ⟨?_, ?_, ?_, ?_, ?_, ?_, ?_⟩
  · intro p h
    rw [Initialize, if_pos h]
  · intro v h1 h2
    rw [StartTagScanning, if_pos ⟨h1, h2⟩]
  · intro h
    rw [StopTagScanning, if_pos h]
  · intro h1 h2
    rw [ResetTagScanState, if_pos ⟨h1, h2⟩]
  · intro h1 h2 h3
    rw [GetTagInfo, if_pos ⟨h1, h2, h3⟩]
  · intro h
    rw [GetTagInRangeEvent, if_pos h]
  · intro h
    rw [GetTagOutOfRangeEvent, if_pos h]

/-- Witness for C1: from state `Scanning` all gated operations except
`StopTagScanning` reject, and from state `NotScanning` `StopTagScanning`
rejects, each leaving the module unchanged. -/
theorem C1_state_gating_witness :
    Initialize (testModule TagState.Scanning) 1 =
      (some (ResultCode.error CommandInvalidForState), testModule TagState.Scanning)
    ∧ StartTagScanning (testModule TagState.Scanning) 0 =
      (some (ResultCode.error CommandInvalidForState), testModule TagState.Scanning)
    ∧ StopTagScanning (testModule TagState.NotScanning) =
      (some (ResultCode.error CommandInvalidForState), testModule TagState.NotScanning)
    ∧ ResetTagScanState (testModule TagState.Scanning) =
      (some (ResultCode.error CommandInvalidForState), testModule TagState.Scanning)
    ∧ GetTagInfo (testModule TagState.Scanning) =
      (some (ResultCode.error CommandInvalidForState, none), testModule TagState.Scanning)
    ∧ GetTagInRangeEvent (testModule TagState.Scanning) =
      (some (ResultCode.error CommandInvalidForState), testModule TagState.Scanning)
    ∧ GetTagOutOfRangeEvent (testModule TagState.Scanning) =
      (some (ResultCode.error CommandInvalidForState), testModule TagState.Scanning) :=
  ⟨(C1_state_gating _).1 1 (by decide),
   (C1_state_gating _).2.1 0 (by decide) (by decide),
   (C1_state_gating _).2.2.1 (Or.inr (by decide)),
   (C1_state_gating _).2.2.2.1 (by decide) (by decide),
   (C1_state_gating _).2.2.2.2.1 (by decide) (by decide) (by decide),
   (C1_state_gating _).2.2.2.2.2.1 (by decide),
   (C1_state_gating _).2.2.2.2.2.2 (by decide)⟩

end NFC

namespace NFC

/-- C10: operation 0x1A succeeds exactly from `TagInRange`, moving the
state to `Unknown6` (the spec's ExtendedHold); from every other state it
pushes `CommandInvalidForState` and changes nothing.  Moreover it is the
only modelled operation that can bring the tag state to `Unknown6`: every
other handler ends with the state equal to `Unknown6` only if it already
was `Unknown6`. -/
theorem C10_unknown0x1A (m : Module) :
    (m.nfc_tag_state = TagState.TagInRange →
      Unknown0x1A m = (some ResultCode.success, { m with nfc_tag_state := TagState.Unknown6 }))
    ∧ (m.nfc_tag_state ≠ TagState.TagInRange →
      Unknown0x1A m = (some (ResultCode.error CommandInvalidForState), m))
    ∧ (∀ p, (Initialize m p).2.nfc_tag_state = TagState.Unknown6 →
        m.nfc_tag_state = TagState.Unknown6)
    ∧ (∀ p, (Shutdown m p).2.nfc_tag_state = TagState.Unknown6 →
        m.nfc_tag_state = TagState.Unknown6)
    ∧ ((StartCommunication m).2.nfc_tag_state = TagState.Unknown6 →
        m.nfc_tag_state = TagState.Unknown6)
    ∧ ((StopCommunication m).2.nfc_tag_state = TagState.Unknown6 →
        m.nfc_tag_state = TagState.Unknown6)
    ∧ (∀ v, (StartTagScanning m v).2.nfc_tag_state = TagState.Unknown6 →
        m.nfc_tag_state = TagState.Unknown6)
    ∧ ((StopTagScanning m).2.nfc_tag_state = TagState.Unknown6 →
        m.nfc_tag_state = TagState.Unknown6)
    ∧ ((LoadAmiiboData m).2.nfc_tag_state = TagState.Unknown6 →
        m.nfc_tag_state = TagState.Unknown6)
    ∧ ((ResetTagScanState m).2.nfc_tag_state = TagState.Unknown6 →
        m.nfc_tag_state = TagState.Unknown6)
    ∧ (∀ o w, (UpdateStoredAmiiboData m o w).2.2.nfc_tag_state = TagState.Unknown6 →
        m.nfc_tag_state = TagState.Unknown6)
    ∧ ((GetTagInRangeEvent m).2.nfc_tag_state = TagState.Unknown6 →
        m.nfc_tag_state = TagState.Unknown6)
    ∧ ((GetTagOutOfRangeEvent m).2.nfc_tag_state = TagState.Unknown6 →
        m.nfc_tag_state = TagState.Unknown6)
    ∧ ((GetTagState m).2.nfc_tag_state = TagState.Unknown6 →
        m.nfc_tag_state = TagState.Unknown6)
    ∧ ((CommunicationGetStatus m).2.nfc_tag_state = TagState.Unknown6 →
        m.nfc_tag_state = TagState.Unknown6)
    ∧ ((GetTagInfo m).2.nfc_tag_state = TagState.Unknown6 →
        m.nfc_tag_state = TagState.Unknown6)
    ∧ ((GetAmiiboSettings m).2.nfc_tag_state = TagState.Unknown6 →
        m.nfc_tag_state = TagState.Unknown6)
    ∧ (∀ a, (OpenAppData m a).2.nfc_tag_state = TagState.Unknown6 →
        m.nfc_tag_state = TagState.Unknown6)
    ∧ (∀ a s b, (InitializeWriteAppData m a s b).2.nfc_tag_state = TagState.Unknown6 →
        m.nfc_tag_state = TagState.Unknown6)
    ∧ ((ReadAppData m).2.nfc_tag_state = TagState.Unknown6 →
        m.nfc_tag_state = TagState.Unknown6)
    ∧ (∀ s b, (WriteAppData m s b).2.nfc_tag_state = TagState.Unknown6 →
        m.nfc_tag_state = TagState.Unknown6)
    ∧ ((GetAmiiboConfig m).2.nfc_tag_state = TagState.Unknown6 →
        m.nfc_tag_state = TagState.Unknown6)
    ∧ ((GetIdentificationBlock m).2.nfc_tag_state = TagState.Unknown6 →
        m.nfc_tag_state = TagState.Unknown6)
    ∧ (∀ path c, (LoadAmiibo m path c).2.nfc_tag_state = TagState.Unknown6 →
        m.nfc_tag_state = TagState.Unknown6)
    ∧ ((RemoveAmiibo m).nfc_tag_state = TagState.Unknown6 →
        m.nfc_tag_state = TagState.Unknown6) := by
  refine ⟨?_, ?_, ?_, ?_, ?_, ?_, ?_, ?_, ?_, ?_, ?_, ?_, ?_, ?_, ?_, ?_, ?_, ?_, ?_,
    ?_, ?_, ?_, ?_, ?_, ?_⟩
  · intro h
    rw [Unknown0x1A, if_neg (by simp [h])]
  · intro h
    rw [Unknown0x1A, if_pos h]
  · intro p h
    rw [Initialize] at h
    split at h <;> simp_all
  · intro p h
    rw [Shutdown] at h
    simp_all
  · exact fun h => h
  · exact fun h => h
  · intro v h
    rw [StartTagScanning] at h
    split at h
    · exact h
    · have h2 := syncTagState_unknown6 _ h
      simp at h2
  · intro h
    rw [StopTagScanning] at h
    split at h <;> simp_all
  · intro h
    rw [LoadAmiiboData] at h
    simp_all
  · intro h
    rw [ResetTagScanState] at h
    split at h
    · exact h
    · have h2 := syncTagState_unknown6 _ h
      simp at h2
  · intro o w h
    rw [UpdateStoredAmiiboData] at h
    split at h
    · exact h
    · split at h
      · exact h
      · split at h
        · exact h
        · have h2 := syncTagState_unknown6 _ h
          simpa using h2
  · intro h
    rw [GetTagInRangeEvent] at h
    split at h <;> exact h
  · intro h
    rw [GetTagOutOfRangeEvent] at h
    split at h <;> exact h
  · exact fun h => h
  · exact fun h => h
  · intro h
    rw [GetTagInfo] at h
    split at h <;> exact h
  · intro h
    rw [GetAmiiboSettings] at h
    split at h
    · exact h
    · split at h <;> exact h
  · intro a h
    rw [OpenAppData] at h
    split at h
    · exact h
    · split at h
      · exact h
      · split at h <;> exact h
  · intro a s b h
    rw [InitializeWriteAppData] at h
    split at h
    · exact h
    · split at h <;> simp_all
  · intro h
    rw [ReadAppData] at h
    split at h
    · exact h
    · split at h <;> simp_all
  · intro s b h
    rw [WriteAppData] at h
    split at h
    · exact h
    · split at h
      · exact h
      · simp only [ne_eq] at h
        split at h <;> split at h <;> simp_all
  · intro h
    rw [GetAmiiboConfig] at h
    split at h <;> exact h
  · intro h
    rw [GetIdentificationBlock] at h
    split at h
    · exact h
    · split at h <;> exact h
  · intro path c h
    match c with
    | none => exact h
    | some bytes =>
      rw [LoadAmiibo] at h
      simp only at h
      have h2 := syncTagState_unknown6 _ h
      simpa using h2
  · intro h
    rw [RemoveAmiibo] at h
    have h2 := syncTagState_unknown6 _ h
    simpa using h2

/-- Witness for C10: from `TagInRange` operation 0x1A sets `Unknown6`;
from `NotScanning` it rejects with no change. -/
theorem C10_unknown0x1A_witness :
    Unknown0x1A (testModule TagState.TagInRange) =
      (some ResultCode.success,
       { testModule TagState.TagInRange with nfc_tag_state := TagState.Unknown6 })
    ∧ Unknown0x1A (testModule TagState.NotScanning) =
      (some (ResultCode.error CommandInvalidForState), testModule TagState.NotScanning) :=
  ⟨(C10_unknown0x1A _).1 (by decide), (C10_unknown0x1A _).2.1 (by decide)⟩

end NFC

namespace NFC

/-- C8: `LoadAmiibo` on an unreadable or short source returns false and
changes nothing; on a full 0x21C-byte image it returns true, stores the
bytes, and classifies the record as decrypted (LogicalVariant) exactly
when the discriminant byte at offset 0x1E3 equals 0x02. -/
theorem C8_load_classification (m : Module) (path : String) (b : List Nat)
    (_hlen : b.length = 0x21C) :
    LoadAmiibo m path none = (false, m)
    ∧ (LoadAmiibo m path (some b)).1 = true
    ∧ (LoadAmiibo m path (some b)).2.amiibo_data = b
    ∧ (LoadAmiibo m path (some b)).2.amiibo_filename = path
    ∧ ((LoadAmiibo m path (some b)).2.amiibo_decrypted = true ↔ Dec.unknown3 b = 0x02) := by
  refine ⟨rfl, rfl, ?_, ?_, ?_⟩
  · rw [LoadAmiibo]
    exact (syncTagState_fields _).1
  · rw [LoadAmiibo]
    exact (syncTagState_fields _).2.2.1
  · rw [LoadAmiibo]
    simp only
    rw [(syncTagState_fields _).2.1]
    simp

/-- Witness for C8: a zero-filled 0x21C-byte image is classified
RawVariant (discriminant byte 0 at offset 0x1E3). -/
theorem C8_load_classification_witness :
    LoadAmiibo (testModule TagState.Scanning) "amiibo.bin" none =
      (false, testModule TagState.Scanning)
    ∧ ((LoadAmiibo (testModule TagState.Scanning) "amiibo.bin"
          (some (List.replicate 0x21C 0))).2.amiibo_decrypted = true ↔
        Dec.unknown3 (List.replicate 0x21C 0) = 0x02) :=
  ⟨(C8_load_classification (testModule TagState.Scanning) "amiibo.bin"
      (List.replicate 0x21C 0) (List.length_replicate ..)).1,
   (C8_load_classification (testModule TagState.Scanning) "amiibo.bin"
      (List.replicate 0x21C 0) (List.length_replicate ..)).2.2.2.2⟩

/-- C9: `GetAmiiboSettings` with a decrypted record: when flag bit 0x10 is
unset it pushes `AmiiboNotSetup` with an all-zero settings struct; when set
it pushes success with the struct carrying the record's mii, nickname,
flags masked to the low four bits, country, and the unpacked setup date.
In both cases the module state is unchanged. -/
theorem C9_get_amiibo_settings (m : Module) (h : m.amiibo_decrypted = true) :
    (flag_settings_initted (Dec.flags m.amiibo_data) = false →
      GetAmiiboSettings m = (some (ResultCode.error AmiiboNotSetup, zeroAmiiboSettings), m))
    ∧ (flag_settings_initted (Dec.flags m.amiibo_data) = true →
      ∃ s, GetAmiiboSettings m = (some (ResultCode.success, s), m)
        ∧ s.mii = Dec.mii m.amiibo_data
        ∧ s.nickname.take 20 = (m.amiibo_data.drop 0x38).take 20
        ∧ s.flags = Dec.flags m.amiibo_data &&& 0xF
        ∧ s.country = Dec.country m.amiibo_data
        ∧ s.setup_day = unpack_date_day (Dec.setup_date m.amiibo_data)
        ∧ s.setup_month = unpack_date_month (Dec.setup_date m.amiibo_data)
        ∧ s.setup_year = unpack_date_year (Dec.setup_date m.amiibo_data)) := by
  constructor
  · intro hf
    rw [GetAmiiboSettings, if_neg (by simp [h]), if_pos hf]
  · intro hf
    refine ⟨{ mii := Dec.mii m.amiibo_data,
              nickname := (m.amiibo_data.drop 0x38).take 22,
              flags := Dec.flags m.amiibo_data &&& 0xF,
              country := Dec.country m.amiibo_data,
              setup_year := unpack_date_year (Dec.setup_date m.amiibo_data),
              setup_month := unpack_date_month (Dec.setup_date m.amiibo_data),
              setup_day := unpack_date_day (Dec.setup_date m.amiibo_data),
              dummy := List.replicate 0x2C 0 }, ?_, rfl, ?_, rfl, rfl, rfl, rfl, rfl⟩
    · rw [GetAmiiboSettings, if_neg (by simp [h]), if_neg (by simp [hf])]
    · simp [List.take_take]

/-- Witness for C9 on the zero-flags record: settings flag unset, so the
reply is `AmiiboNotSetup` with the zero struct and the module unchanged. -/
theorem C9_get_amiibo_settings_witness :
    GetAmiiboSettings loadedModule =
      (some (ResultCode.error AmiiboNotSetup, zeroAmiiboSettings), loadedModule) :=
  (C9_get_amiibo_settings loadedModule (by decide)).1 (by decide)

end NFC

namespace NFC

/-- C5 (failing input): with a RawVariant (not decrypted) record loaded,
the handlers `GetAmiiboSettings`, `OpenAppData`, `InitializeWriteAppData`,
`ReadAppData` and `WriteAppData` return early without pushing any status
code into their reply builder — the reply is absent, contradicting their
own header documentation that word 1 of the reply is the result code. -/
theorem C5_no_reply_when_encrypted :
    (GetAmiiboSettings rawModule).1 = none
    ∧ (OpenAppData rawModule 0).1 = none
    ∧ (InitializeWriteAppData rawModule 0 0 []).1 = none
    ∧ (ReadAppData rawModule).1 = none
    ∧ (WriteAppData rawModule 0 []).1 = none :=
  ⟨rfl, rfl, rfl, rfl, rfl⟩

/-- C3 (counterexample): `WriteAppData` from state `TagDataLoaded` with a
decrypted record, `declared_size = 1` and an empty input buffer performs no
mutation but pushes `RESULT_SUCCESS`, not an error status as the claim
requires. -/
theorem C3_write_app_data_counterexample :
    (WriteAppData loadedModule 1 []).1 = some ResultCode.success
    ∧ (WriteAppData loadedModule 1 []).1 ≠ some (ResultCode.error CommandInvalidForState)
    ∧ (∀ c, (WriteAppData loadedModule 1 []).1 ≠ some (ResultCode.error c))
    ∧ (WriteAppData loadedModule 1 []).2.amiibo_data = loadedModule.amiibo_data := by
  refine ⟨rfl, by decide, ?_, rfl⟩
  intro c h
  rw [show (WriteAppData loadedModule 1 []).1 = some ResultCode.success from rfl] at h
  exact absurd (Option.some_inj.mp h) (by simp)

end NFC

namespace NFC

/-- C3 (amended): `WriteAppData` with a decrypted record and a state other
than `NotInitialized`: a `declared_size` larger than 0xD8 is first clamped
to 0xD8; if the clamped size differs from the buffer length the handler
performs no mutation of the record — but pushes `RESULT_SUCCESS` (the
mismatch is only logged), not an error status; if they match, exactly that
many bytes are copied into the application-data region starting at offset
0xDC and every other byte of the record is left untouched. -/
theorem C3_write_app_data (m : Module) (size : Nat) (buffer : List Nat)
    (hdec : m.amiibo_decrypted = true) (hst : m.nfc_tag_state ≠ TagState.NotInitialized)
    (hlen : m.amiibo_data.length = 0x21C) :
    ((if size > 0xD8 then 0xD8 else size) ≠ buffer.length →
      WriteAppData m size buffer =
        (some ResultCode.success, { m with nfc_tag_state := TagState.TagDataLoaded }))
    ∧ ((if size > 0xD8 then 0xD8 else size) = buffer.length →
      (WriteAppData m size buffer).1 = some ResultCode.success
      ∧ (WriteAppData m size buffer).2.nfc_tag_state = TagState.TagDataLoaded
      ∧ (WriteAppData m size buffer).2.amiibo_data.length = 0x21C
      ∧ (∀ i, 0xDC ≤ i → i < 0xDC + buffer.length →
          getByte (WriteAppData m size buffer).2.amiibo_data i = buffer.getD (i - 0xDC) 0)
      ∧ (∀ i, i < 0xDC ∨ 0xDC + buffer.length ≤ i →
          getByte (WriteAppData m size buffer).2.amiibo_data i = getByte m.amiibo_data i)) := by
  constructor
  · intro hne
    rw [WriteAppData, if_neg (by simp [hdec]), if_neg hst]
    simp only
    rw [if_pos hne]
  · intro heq
    have hble : buffer.length ≤ 0xD8 := by
      by_cases hs : size > 0xD8
      · rw [if_pos hs] at heq
        omega
      · rw [if_neg hs] at heq
        omega
    have hwa : WriteAppData m size buffer =
        (some ResultCode.success,
         { m with amiibo_data := writeBytes m.amiibo_data 0xDC buffer,
                  nfc_tag_state := TagState.TagDataLoaded }) := by
      rw [WriteAppData, if_neg (by simp [hdec]), if_neg hst]
      simp only
      rw [if_neg (fun hc => hc heq)]
    refine ⟨by rw [hwa], by rw [hwa], ?_, ?_, ?_⟩
    · rw [hwa]
      simp only
      rw [length_writeBytes _ _ _ (by omega)]
      exact hlen
    · intro i h1 h2
      rw [hwa]
      simp only
      rw [getByte_writeBytes _ _ _ _ (by omega), if_neg (by omega), if_pos (by omega)]
    · intro i h1
      rw [hwa]
      simp only
      rw [getByte_writeBytes _ _ _ _ (by omega)]
      rcases h1 with h1 | h1
      · rw [if_pos h1]
      · rw [if_neg (by omega), if_neg (by omega)]

/-- Witness for C3: on the concrete loaded module, a declared size of 1
with an empty buffer is rejected without mutation (and still succeeds),
while a declared size of 0xFF with a 0xD8-byte buffer is clamped to 0xD8
and copied into the application-data region, byte 0 staying untouched. -/
theorem C3_write_app_data_witness :
    WriteAppData loadedModule 1 [] =
      (some ResultCode.success, { loadedModule with nfc_tag_state := TagState.TagDataLoaded })
    ∧ (WriteAppData loadedModule 0xFF (List.replicate 0xD8 7)).1 = some ResultCode.success
    ∧ getByte (WriteAppData loadedModule 0xFF (List.replicate 0xD8 7)).2.amiibo_data 0xDC = 7
    ∧ getByte (WriteAppData loadedModule 0xFF (List.replicate 0xD8 7)).2.amiibo_data 0 =
        getByte loadedModule.amiibo_data 0 := by
  have hlen : loadedModule.amiibo_data.length = 0x21C := by
    rw [show loadedModule.amiibo_data = List.replicate 0x21C 0 from rfl,
        List.length_replicate]
  refine ⟨C3_write_app_data loadedModule 1 [] rfl (by decide) hlen |>.1 (by decide),
    (C3_write_app_data loadedModule 0xFF (List.replicate 0xD8 7) rfl (by decide) hlen |>.2
      (by decide)).1,
    ?_,
    (C3_write_app_data loadedModule 0xFF (List.replicate 0xD8 7) rfl (by decide) hlen |>.2
      (by decide)).2.2.2.2 0 (Or.inl (by decide))⟩
  have h := (C3_write_app_data loadedModule 0xFF (List.replicate 0xD8 7) rfl (by decide)
    hlen |>.2 (by decide)).2.2.2.1 0xDC (by decide) (by decide)
  rw [h]
  decide

end NFC

namespace NFC

/-- Characterization of the success path of `UpdateStoredAmiiboData`: with
the three preconditions met it stamps the placeholder write date,
increments the 16-bit write counter, reports the (attempted) persisted
image, clears tag presence and reconciles — independently of whether the
file I/O succeeded. -/
theorem updateStored_eq (m : Module) (o w : Bool)
    (h1 : m.nfc_tag_state = TagState.TagDataLoaded) (h2 : m.amiibo_decrypted = true)
    (h3 : m.amiibo_filename ≠ "") :
    UpdateStoredAmiiboData m o w =
      (some ResultCode.success,
       (if o = true ∧ w = true then
          some (setBE16 (setBE16 m.amiibo_data 0x32 (pack_date 11 21 2014)) 0xB4
            ((be16 (setBE16 m.amiibo_data 0x32 (pack_date 11 21 2014)) 0xB4 + 1) % 65536))
        else none),
       SyncTagState
         { m with
           amiibo_data := setBE16 (setBE16 m.amiibo_data 0x32 (pack_date 11 21 2014)) 0xB4
             ((be16 (setBE16 m.amiibo_data 0x32 (pack_date 11 21 2014)) 0xB4 + 1) % 65536)
           amiibo_in_range := false }) := by
  rw [UpdateStoredAmiiboData, if_neg (by simp [h1]), if_neg (by simp [h2]), if_neg h3]

/-- The reconciliation after a successful `UpdateStoredAmiiboData` moves
`TagDataLoaded` to `TagOutOfRange` (presence was just cleared). -/
theorem updateStored_sync_state (m : Module) (d : List Nat)
    (h1 : m.nfc_tag_state = TagState.TagDataLoaded) :
    (SyncTagState { m with amiibo_data := d, amiibo_in_range := false }).nfc_tag_state =
      TagState.TagOutOfRange := by
  rw [SyncTagState, if_neg (by simp), if_pos (by simp [h1])]

/-- The date/counter stamping: the stamped record's `last_write_date` is
the packed placeholder date and its `write_count` is the 16-bit increment
of the old one. -/
theorem updateStored_stamp (dta : List Nat) (hlen : dta.length = 0x21C) :
    Dec.last_write_date (setBE16 (setBE16 dta 0x32 (pack_date 11 21 2014)) 0xB4
      ((be16 (setBE16 dta 0x32 (pack_date 11 21 2014)) 0xB4 + 1) % 65536)) =
        pack_date 11 21 2014
    ∧ Dec.write_count (setBE16 (setBE16 dta 0x32 (pack_date 11 21 2014)) 0xB4
      ((be16 (setBE16 dta 0x32 (pack_date 11 21 2014)) 0xB4 + 1) % 65536)) =
        (Dec.write_count dta + 1) % 65536
    ∧ (setBE16 (setBE16 dta 0x32 (pack_date 11 21 2014)) 0xB4
      ((be16 (setBE16 dta 0x32 (pack_date 11 21 2014)) 0xB4 + 1) % 65536)).length = 0x21C := by
  have hPlt : pack_date 11 21 2014 < 65536 := by
    rw [pack_date]
    exact Nat.mod_lt _ (by norm_num)
  have hd1len : (setBE16 dta 0x32 (pack_date 11 21 2014)).length = dta.length :=
    length_setBE16 _ _ _ (by omega)
  refine ⟨?_, ?_, ?_⟩
  · rw [Dec.last_write_date,
      be16_setBE16_ne _ _ _ _ (by omega) (by omega),
      be16_setBE16 _ _ _ (by omega) hPlt]
  · rw [Dec.write_count,
      be16_setBE16 _ _ _ (by omega) (Nat.mod_lt _ (by norm_num)),
      be16_setBE16_ne _ _ _ _ (by omega) (by omega)]
    rfl
  · rw [length_setBE16 _ _ _ (by omega), hd1len]
    exact hlen

end NFC

namespace NFC

/-- C4 (counterexample): from `TagDataLoaded` with a decrypted record and
a known backing path, when the file cannot be opened the handler still
pushes `RESULT_SUCCESS` (not `CommandInvalidForState`), the in-memory
write counter is incremented, the session state moves to `TagOutOfRange`
and the presence flag is cleared — contradicting the claim on every
point. -/
theorem C4_update_io_failure_counterexample :
    (UpdateStoredAmiiboData loadedModule false false).1 ≠
      some (ResultCode.error CommandInvalidForState)
    ∧ (UpdateStoredAmiiboData loadedModule false false).1 = some ResultCode.success
    ∧ Dec.write_count (UpdateStoredAmiiboData loadedModule false false).2.2.amiibo_data ≠
        Dec.write_count loadedModule.amiibo_data
    ∧ (UpdateStoredAmiiboData loadedModule false false).2.2.nfc_tag_state ≠
        loadedModule.nfc_tag_state
    ∧ (UpdateStoredAmiiboData loadedModule false false).2.2.amiibo_in_range ≠
        loadedModule.amiibo_in_range := by
  decide

/-- C4 (amended): when the file I/O fails in either mode — the backing
path cannot be opened (`io_open_ok = false`), or it opens but `WriteBytes`
fails (`io_open_ok = true`, `io_write_ok = false`) —
`UpdateStoredAmiiboData` still pushes `RESULT_SUCCESS`, still stamps the
placeholder write date and increments the write counter in memory,
persists nothing, and still evicts the tag, so presence becomes false and
reconciliation moves the state to `TagOutOfRange`; the I/O failure is only
logged. -/
theorem C4_update_io_failure (m : Module) (o w : Bool)
    (hio : ¬ (o = true ∧ w = true))
    (h1 : m.nfc_tag_state = TagState.TagDataLoaded) (h2 : m.amiibo_decrypted = true)
    (h3 : m.amiibo_filename ≠ "") (hlen : m.amiibo_data.length = 0x21C) :
    (UpdateStoredAmiiboData m o w).1 = some ResultCode.success
    ∧ (UpdateStoredAmiiboData m o w).2.1 = none
    ∧ Dec.last_write_date (UpdateStoredAmiiboData m o w).2.2.amiibo_data =
        pack_date 11 21 2014
    ∧ Dec.write_count (UpdateStoredAmiiboData m o w).2.2.amiibo_data =
        (Dec.write_count m.amiibo_data + 1) % 65536
    ∧ (UpdateStoredAmiiboData m o w).2.2.amiibo_in_range = false
    ∧ (UpdateStoredAmiiboData m o w).2.2.nfc_tag_state = TagState.TagOutOfRange := by
  have he := updateStored_eq m o w h1 h2 h3
  have hdata : (UpdateStoredAmiiboData m o w).2.2.amiibo_data =
      setBE16 (setBE16 m.amiibo_data 0x32 (pack_date 11 21 2014)) 0xB4
        ((be16 (setBE16 m.amiibo_data 0x32 (pack_date 11 21 2014)) 0xB4 + 1) % 65536) := by
    rw [he]
    exact (syncTagState_fields _).1
  refine ⟨by rw [he], by rw [he]; simp only [if_neg hio], ?_, ?_, ?_, ?_⟩
  · rw [hdata]
    exact (updateStored_stamp m.amiibo_data hlen).1
  · rw [hdata]
    exact (updateStored_stamp m.amiibo_data hlen).2.1
  · rw [he]
    exact (syncTagState_fields _).2.2.2.1
  · rw [he]
    exact updateStored_sync_state m _ h1

/-- Witness for C4 (amended) on the concrete loaded module, in both
failure modes: the file does not open, and the file opens but the write
fails. -/
theorem C4_update_io_failure_witness :
    ((UpdateStoredAmiiboData loadedModule false false).1 = some ResultCode.success
    ∧ (UpdateStoredAmiiboData loadedModule false false).2.1 = none
    ∧ Dec.last_write_date (UpdateStoredAmiiboData loadedModule false false).2.2.amiibo_data =
        pack_date 11 21 2014
    ∧ Dec.write_count (UpdateStoredAmiiboData loadedModule false false).2.2.amiibo_data =
        (Dec.write_count loadedModule.amiibo_data + 1) % 65536
    ∧ (UpdateStoredAmiiboData loadedModule false false).2.2.amiibo_in_range = false
    ∧ (UpdateStoredAmiiboData loadedModule false false).2.2.nfc_tag_state =
        TagState.TagOutOfRange)
    ∧ ((UpdateStoredAmiiboData loadedModule true false).1 = some ResultCode.success
    ∧ (UpdateStoredAmiiboData loadedModule true false).2.1 = none
    ∧ Dec.last_write_date (UpdateStoredAmiiboData loadedModule true false).2.2.amiibo_data =
        pack_date 11 21 2014
    ∧ Dec.write_count (UpdateStoredAmiiboData loadedModule true false).2.2.amiibo_data =
        (Dec.write_count loadedModule.amiibo_data + 1) % 65536
    ∧ (UpdateStoredAmiiboData loadedModule true false).2.2.amiibo_in_range = false
    ∧ (UpdateStoredAmiiboData loadedModule true false).2.2.nfc_tag_state =
        TagState.TagOutOfRange) :=
  ⟨C4_update_io_failure loadedModule false false (by decide) rfl rfl (by decide) (by decide),
   C4_update_io_failure loadedModule true false (by decide) rfl rfl (by decide) (by decide)⟩

/-- C7: a successful `UpdateStoredAmiiboData` (state `TagDataLoaded`,
decrypted record, non-empty backing path, file I/O succeeding) sets the
record's `last_write_date` to `pack_date` of the placeholder date (month
11, day 21, year 2014), increments `write_count` by one (as a 16-bit
counter), writes the full 0x21C-byte updated record to the backing path,
and evicts the tag: presence becomes false and reconciliation moves the
state to `TagOutOfRange`. -/
theorem C7_update_stored_success (m : Module)
    (h1 : m.nfc_tag_state = TagState.TagDataLoaded) (h2 : m.amiibo_decrypted = true)
    (h3 : m.amiibo_filename ≠ "") (hlen : m.amiibo_data.length = 0x21C) :
    (UpdateStoredAmiiboData m true true).1 = some ResultCode.success
    ∧ Dec.last_write_date (UpdateStoredAmiiboData m true true).2.2.amiibo_data =
        pack_date 11 21 2014
    ∧ Dec.write_count (UpdateStoredAmiiboData m true true).2.2.amiibo_data =
        (Dec.write_count m.amiibo_data + 1) % 65536
    ∧ (UpdateStoredAmiiboData m true true).2.1 =
        some (UpdateStoredAmiiboData m true true).2.2.amiibo_data
    ∧ ((UpdateStoredAmiiboData m true true).2.1.getD []).length = 0x21C
    ∧ (UpdateStoredAmiiboData m true true).2.2.amiibo_in_range = false
    ∧ (UpdateStoredAmiiboData m true true).2.2.nfc_tag_state = TagState.TagOutOfRange := by
  have he := updateStored_eq m true true h1 h2 h3
  have hdata : (UpdateStoredAmiiboData m true true).2.2.amiibo_data =
      setBE16 (setBE16 m.amiibo_data 0x32 (pack_date 11 21 2014)) 0xB4
        ((be16 (setBE16 m.amiibo_data 0x32 (pack_date 11 21 2014)) 0xB4 + 1) % 65536) := by
    rw [he]
    exact (syncTagState_fields _).1
  refine ⟨by rw [he], ?_, ?_, ?_, ?_, ?_, ?_⟩
  · rw [hdata]
    exact (updateStored_stamp m.amiibo_data hlen).1
  · rw [hdata]
    exact (updateStored_stamp m.amiibo_data hlen).2.1
  · rw [hdata, he]
    simp
  · rw [he]
    simp only [if_pos (show true = true ∧ true = true from ⟨rfl, rfl⟩), Option.getD_some]
    exact (updateStored_stamp m.amiibo_data hlen).2.2
  · rw [he]
    exact (syncTagState_fields _).2.2.2.1
  · rw [he]
    exact updateStored_sync_state m _ h1

/-- Witness for C7 on the concrete loaded module with succeeding I/O. -/
theorem C7_update_stored_success_witness :
    (UpdateStoredAmiiboData loadedModule true true).1 = some ResultCode.success
    ∧ Dec.last_write_date (UpdateStoredAmiiboData loadedModule true true).2.2.amiibo_data =
        pack_date 11 21 2014
    ∧ Dec.write_count (UpdateStoredAmiiboData loadedModule true true).2.2.amiibo_data =
        (Dec.write_count loadedModule.amiibo_data + 1) % 65536
    ∧ (UpdateStoredAmiiboData loadedModule true true).2.1 =
        some (UpdateStoredAmiiboData loadedModule true true).2.2.amiibo_data
    ∧ ((UpdateStoredAmiiboData loadedModule true true).2.1.getD []).length = 0x21C
    ∧ (UpdateStoredAmiiboData loadedModule true true).2.2.amiibo_in_range = false
    ∧ (UpdateStoredAmiiboData loadedModule true true).2.2.nfc_tag_state =
        TagState.TagOutOfRange :=
  C7_update_stored_success loadedModule rfl rfl (by decide) (by decide)

end NFC
